import Mathlib

/- Verification of the grocery-store catalog crawler: a shallow embedding of
   the crawl orchestration code (backoff sequencing, list perturbation, facet
   flattening and ranking, pagination with drift handling, HTTP status
   classification, and the three-mode crawl orchestrator), with theorems
   checking the design documentation against the embedded code.

   Randomness is modelled by explicit draw streams.  A library call of the
   form randint a b (uniform on the closed integer range from a to b) is
   embedded as a + d % (b - a + 1) for a draw d, so exactly the outcomes the
   library call can produce are realised by some draw. -/

/-- One draw of the backoff generator loop body: k = randint 0 (2 ^ c). -/
def eca_draw_k (draw : Nat → Nat) (c : Nat) : Nat :=
  draw c % (2 ^ c + 1)

/-- Conversion performed by the generator body: wait_ms = k * step_ms, and
wait_s = wait_ms / 1000. -/
def eca_wait (step_ms : ℚ) (k : Nat) : ℚ :=
  (k : ℚ) * step_ms / 1000

/-- The generator exp_collision_avoidance as the stream of its yields: index 0
is the initial unconditional yield of 0; index c + 1 is the yield produced by
the loop iteration whose failure counter is c (the counter starts at 0 and is
incremented after every yield past the first).  Totality of the stream in its
index models that the generator never terminates on its own. -/
def exp_collision_avoidance (step_ms : ℚ) (draw : Nat → Nat) : Nat → ℚ
  | 0 => 0
  | c + 1 => eca_wait step_ms (eca_draw_k draw c)

/-- The simultaneous assignment ls[i], ls[j] = ls[j], ls[i] of the perturb
loop: read both positions, then write both. -/
def list_swap {α : Type} (l : List α) (i j : Nat) : List α :=
  match l[i]?, l[j]? with
  | some vi, some vj => (l.set i vj).set j vi
  | _, _ => l

/-- The swap partner j = randint (max 0 (i - radius)) (min (n - 1) (i + radius))
drawn for position i (truncated Nat subtraction realises the max with 0). -/
def perturb_index (radius n : Nat) (jdraw : Nat → Nat) (i : Nat) : Nat :=
  let lo := i - radius
  let hi := min (n - 1) (i + radius)
  lo + jdraw i % (hi - lo + 1)

/-- One iteration of the perturb loop: when the coin for position i comes up
(the test random.random() < prob), swap position i with the drawn partner. -/
def perturb_step {α : Type} (radius : Nat) (coin : Nat → Bool) (jdraw : Nat → Nat)
    (n : Nat) (l : List α) (i : Nat) : List α :=
  if coin i then list_swap l i (perturb_index radius n jdraw i) else l

/-- perturb copies its input list and runs the swap loop over positions
i = 0, 1, ..., n - 1 on the copy; the copy is implicit here because Lean
lists are persistent, which also renders the source's promise that the input
list object is left unmodified automatic. -/
def perturb {α : Type} (ls : List α) (radius : Nat) (coin : Nat → Bool)
    (jdraw : Nat → Nat) : List α :=
  (List.range ls.length).foldl (perturb_step radius coin jdraw ls.length) ls

/-- The sort strategies of the SortBy enumeration. -/
inductive SortBy where
  | Relevance
  | AToZ
  | ZToA
  | PriceLowToHigh
  | PriceHighToLow
deriving DecidableEq

/-- The SORTBY_DUALS mapping: a partial dual relation on sort strategies. -/
def sortby_dual : SortBy → Option SortBy
  | .AToZ => some .ZToA
  | .ZToA => some .AToZ
  | .PriceLowToHigh => some .PriceHighToLow
  | .PriceHighToLow => some .PriceLowToHigh
  | .Relevance => none

/-- list(SORTBY_DUALS.keys()) in dict insertion order. -/
def duals_keys : List SortBy :=
  [.AToZ, .ZToA, .PriceLowToHigh, .PriceHighToLow]

/-- The population of the weighted sort draw in facet mode, in the insertion
order of the weights dict (Relevance 0.7, PriceLowToHigh 0.2, then the three
0.033 entries); the weights shape the distribution only, which the draw
stream abstracts. -/
def weight_population : List SortBy :=
  [.Relevance, .PriceLowToHigh, .PriceHighToLow, .AToZ, .ZToA]

/-- random.choice over a list of sort strategies, the draw reduced modulo the
population size; the default is never used because every population is
non-empty. -/
def choice_sort (options : List SortBy) (d : Nat) : SortBy :=
  options.getD (d % options.length) SortBy.Relevance

/-- One tree node of SearchAPIResponse.Meta.Facet.Value: key, docCount, label,
isSelected and the child subtrees (the opaque thumbnail field carries no
control-flow information and is omitted). -/
inductive FacetValue where
  | mk (key : String) (docCount : Nat) (label : String)
      (isSelected : Option Bool) (children : List FacetValue)

def FacetValue.key : FacetValue → String
  | .mk k _ _ _ _ => k

def FacetValue.docCount : FacetValue → Nat
  | .mk _ d _ _ _ => d

def FacetValue.children : FacetValue → List FacetValue
  | .mk _ _ _ _ cs => cs

/-- The Facet.Config record; the source field named type is rendered
facetType, and the nested component record is opaque to the crawl logic and
omitted. -/
structure FacetConfig where
  parameterName : String
  facetType : String
  isMultiValue : Bool
  componentName : String

/-- SearchAPIResponse.Meta.Facet: one filterable attribute with its value
trees. -/
structure Facet where
  name : String
  localizedName : String
  docCount : Nat
  config : FacetConfig
  values : List FacetValue

/-- The FacetFlat dataclass: a flattened filter with its parameter key, value,
item count, and the set of its immediate child value keys. -/
structure FacetFlat where
  key : String
  value : String
  n_items : Nat
  children : Finset String
deriving DecidableEq

/-- FacetFlat.id: the string key=value uniquely identifying a facet filter. -/
def FacetFlat.id (f : FacetFlat) : String :=
  f.key ++ "=" ++ f.value

mutual
/-- flatten_facet_value: ret starts as the singleton of the node and then
appends the flattening of each child in order. -/
def flatten_facet_value : FacetValue → List FacetValue
  | .mk k d lb sel cs => .mk k d lb sel cs :: flatten_facet_values cs
/-- The loop for child in facet_value.children: ret += flatten_facet_value(child),
expressed over the child list. -/
def flatten_facet_values : List FacetValue → List FacetValue
  | [] => []
  | c :: cs => flatten_facet_value c ++ flatten_facet_values cs
end

mutual
/-- Total node count of one FacetValue tree. -/
def facet_value_size : FacetValue → Nat
  | .mk _ _ _ _ cs => 1 + facet_values_size cs
/-- Total node count of a list of FacetValue trees. -/
def facet_values_size : List FacetValue → Nat
  | [] => 0
  | c :: cs => facet_value_size c + facet_values_size cs
end

mutual
/-- Modelled from the spec: the depth-first pre-order traversal of a
FacetValue tree, in which a node appears before all of its descendants and
each node is visited exactly once; stated independently so the source
flattening can be compared against it. -/
def preorder_spec : FacetValue → List FacetValue
  | .mk k d lb sel cs => .mk k d lb sel cs :: preorder_list cs
/-- Modelled from the spec: pre-order traversal of a forest, left to
right. -/
def preorder_list : List FacetValue → List FacetValue
  | [] => []
  | c :: cs => preorder_spec c ++ preorder_list cs
end

/-- The set comprehension of the immediate child keys of a node. -/
def child_keys (v : FacetValue) : Finset String :=
  (v.children.map FacetValue.key).toFinset

/-- The FacetFlat built for one visited node in flatten_facet. -/
def facet_flat_of (key : String) (v : FacetValue) : FacetFlat :=
  ⟨key, v.key, v.docCount, child_keys v⟩

/-- flatten_facet: all_values is the concatenation of the flattenings of the
facet value trees, and one FacetFlat is emitted per entry, all carrying the
facet config parameterName as key. -/
def flatten_facet (fc : Facet) : List FacetFlat :=
  (flatten_facet_values fc.values).map (facet_flat_of fc.config.parameterName)

/-- The PageCrawlResult dataclass restricted to its sku set; the raw response
payload and fetch timestamp are opaque pass-through data with no effect on
crawl control flow. -/
structure PageCrawlResult where
  skus : Finset String
deriving DecidableEq

/-- Union of the sku sets of a list of pages. -/
def skus_union : List PageCrawlResult → Finset String
  | [] => ∅
  | p :: ps => p.skus ∪ skus_union ps

/-- Result of one consuming loop over the pages of a Paginator invocation:
the pages actually yielded onward, the seen-sku set afterwards, and whether
the loop returned early because the target was reached. -/
structure LoopRes where
  out : List PageCrawlResult
  seen : Finset String
  stopped : Bool
deriving DecidableEq

/-- The loop body shared by dual-sort mode and facet mode in crawl_store:
for each page, first skus_seen.update(page.skus), then return when
len(skus_seen) >= n_products, and only otherwise yield the page. -/
def crawl_page_loop (n_products : Nat) :
    Finset String → List PageCrawlResult → LoopRes
  | seen, [] => ⟨[], seen, false⟩
  | seen, p :: ps =>
    let seen1 := seen ∪ p.skus
    if n_products ≤ seen1.card then ⟨[], seen1, true⟩
    else
      let r := crawl_page_loop n_products seen1 ps
      ⟨p :: r.out, r.seen, r.stopped⟩

/-- Dual-sort mode of crawl_store: one random dual-capable sort, then, unless
the target was reached, its dual, with seen skus carried across; the pages
argument stands for the sequence of pages the Paginator invocation with that
sort (and no filter) yields. -/
def dual_sort_crawl
    (pages : SortBy → Option (String × String) → List PageCrawlResult)
    (n_products : Nat) (dual_draw0 : Nat) : List PageCrawlResult :=
  let sort_by := choice_sort duals_keys dual_draw0
  let r1 := crawl_page_loop n_products ∅ (pages sort_by none)
  if r1.stopped then r1.out
  else
    let inverse_sort_by := (sortby_dual sort_by).getD SortBy.Relevance
    let r2 := crawl_page_loop n_products r1.seen (pages inverse_sort_by none)
    r1.out ++ r2.out

/-- Orchestrator-local state of facet-partitioned mode: pages yielded so far,
skus_seen, filters_exhausted, the log of Paginator invocations issued (sort
and the filter key and value: the observable requests), and whether the
crawl returned early. -/
structure FacetState where
  out : List PageCrawlResult
  seen : Finset String
  exhausted : Finset String
  log : List (SortBy × String × String)
  stopped : Bool
deriving DecidableEq

def facet_state_init : FacetState := ⟨[], ∅, ∅, [], false⟩

/-- Processing of one filter of the ranked list in facet mode: skip when the
filter id is already exhausted; otherwise crawl it with a dual pair of sorts
when n_items >= max_page_items and with one weighted-draw sort otherwise;
afterwards, unless the crawl returned early, add the filter id and its
recorded child keys to the exhausted set. -/
def facet_filter_step
    (pages : SortBy → Option (String × String) → List PageCrawlResult)
    (n_products max_page_items : Nat) (dual_draw weight_draw : Nat → Nat)
    (i : Nat) (st : FacetState) (f : FacetFlat) : FacetState :=
  if st.stopped then st
  else
    let st1 :=
      if f.id ∈ st.exhausted then st
      else if max_page_items ≤ f.n_items then
        let sort_by := choice_sort duals_keys (dual_draw i)
        let r1 := crawl_page_loop n_products st.seen
          (pages sort_by (some (f.key, f.value)))
        let st2 : FacetState :=
          { out := st.out ++ r1.out, seen := r1.seen,
            exhausted := st.exhausted,
            log := st.log ++ [(sort_by, f.key, f.value)],
            stopped := r1.stopped }
        if st2.stopped then st2
        else
          let inverse_sort_by := (sortby_dual sort_by).getD SortBy.Relevance
          let r2 := crawl_page_loop n_products st2.seen
            (pages inverse_sort_by (some (f.key, f.value)))
          { out := st2.out ++ r2.out, seen := r2.seen,
            exhausted := st2.exhausted,
            log := st2.log ++ [(inverse_sort_by, f.key, f.value)],
            stopped := r2.stopped }
      else
        let sort_by := choice_sort weight_population (weight_draw i)
        let r := crawl_page_loop n_products st.seen
          (pages sort_by (some (f.key, f.value)))
        { out := st.out ++ r.out, seen := r.seen,
          exhausted := st.exhausted,
          log := st.log ++ [(sort_by, f.key, f.value)],
          stopped := r.stopped }
    if st1.stopped then st1
    else { st1 with exhausted := insert f.id st1.exhausted ∪ f.children }

/-- The for flter in all_possible_filters loop of facet mode; the position
index feeds the draw streams. -/
def facet_crawl
    (pages : SortBy → Option (String × String) → List PageCrawlResult)
    (n_products max_page_items : Nat) (dual_draw weight_draw : Nat → Nat) :
    List FacetFlat → Nat → FacetState → FacetState
  | [], _, st => st
  | f :: fs, i, st =>
    facet_crawl pages n_products max_page_items dual_draw weight_draw fs
      (i + 1)
      (facet_filter_step pages n_products max_page_items dual_draw
        weight_draw i st f)

/-- The ranker closure of crawl_store: it returns ff.n_items at once, so the
penalty branch written after that return is unreachable; its would-be value
is kept separately as ranker_dead_code. -/
def ranker (max_page_items : Nat) (ff : FacetFlat) : Int :=
  ff.n_items

/-- The unreachable penalty branch that follows the early return in ranker:
filters whose n_items reaches 2 * max_page_items would be penalised by twice
the unreachable excess. -/
def ranker_dead_code (max_page_items : Nat) (ff : FacetFlat) : Int :=
  let max_reachable : Int := 2 * max_page_items
  if max_reachable ≤ ff.n_items then
    let n_unreachable : Int := ff.n_items - max_reachable
    ff.n_items - 2 * n_unreachable
  else ff.n_items

/-- The synthetic null facet: no filter applied, counting the whole
catalog. -/
def null_facet (n_products : Nat) : FacetFlat :=
  ⟨"", "", n_products, ∅⟩

/-- Ranking in crawl_store: append the null facet, sort ascending by the
ranker key with the stable library sort, then reverse, which is the slice
[::-1] of the Python sorted call. -/
def rank_filters (n_products max_page_items : Nat)
    (filters : List FacetFlat) : List FacetFlat :=
  ((filters ++ [null_facet n_products]).mergeSort
    (fun a b => decide (ranker max_page_items a ≤ ranker max_page_items b))).reverse

/-- The three crawl modes of the orchestrator. -/
inductive CrawlMode where
  | direct
  | dualSort
  | facetPartitioned
deriving DecidableEq

/-- The branch structure of crawl_store: first n_products <= 2 * max_page_items,
then within it n_products <= max_page_items. -/
def crawl_mode (max_page_items n_products : Nat) : CrawlMode :=
  if n_products ≤ 2 * max_page_items then
    if n_products ≤ max_page_items then .direct else .dualSort
  else .facetPartitioned

/-- crawl_store with the initial probe result n_products given, the pages of
each Paginator invocation abstracted as a function of its sort and optional
filter, and the facet fetch abstracted as the facet list; direct mode yields
every page of one default-sort unfiltered invocation, dual-sort mode runs a
random dual pair, and facet mode flattens, ranks, perturbs (radius 2, the
probability 0.3 draw inside the coin stream) and iterates the filters. -/
def crawl_store
    (pages : SortBy → Option (String × String) → List PageCrawlResult)
    (facets : List Facet) (n_products max_page_items : Nat)
    (dual_draw0 : Nat) (dual_draw weight_draw : Nat → Nat)
    (coin : Nat → Bool) (jdraw : Nat → Nat) : List PageCrawlResult :=
  match crawl_mode max_page_items n_products with
  | .direct => pages SortBy.Relevance none
  | .dualSort => dual_sort_crawl pages n_products dual_draw0
  | .facetPartitioned =>
    let all_possible_filters := (facets.map flatten_facet).flatten
    let ranked := rank_filters n_products max_page_items all_possible_filters
    let perturbed := perturb ranked 2 coin jdraw
    (facet_crawl pages n_products max_page_items dual_draw weight_draw
      perturbed 0 facet_state_init).out

/-- One page of the upstream response as the Paginator sees it: the reported
totalCount and the sku fields of the data array (in order, duplicates
possible before the set comprehension). -/
structure Page where
  totalCount : Nat
  data : List String
deriving DecidableEq

/-- Loop state of one _crawl_results invocation: end_index, current_index,
and the count t of fetches issued so far, indexing the environment. -/
structure PagState where
  endIndex : Option Nat
  currentIndex : Nat
  t : Nat
deriving DecidableEq

def pag_init : PagState := ⟨none, 0, 0⟩

/-- The is_done_paging helper, clause for clause. -/
def is_done_paging (current_index : Nat) (end_index : Option Nat)
    (page_size max_base_index : Nat) : Bool :=
  let unknown_end : Bool := end_index.isNone
  let past_end : Bool := !unknown_end && decide (end_index.getD 0 ≤ current_index)
  let past_reachable : Bool := decide (max_base_index + page_size < current_index)
  past_reachable || past_end

/-- What one fetch yields onward: the offset requested (clamped to
max_page_items) and the set of skus of the page. -/
structure FetchRec where
  offset : Nat
  skus : Finset String
deriving DecidableEq

/-- One iteration of the _crawl_results while loop, entered when
is_done_paging is false: request min(current_index, max_page_items), adopt
the reported totalCount when end_index is unknown, yield the page, and then
either clear end_index on a drift (reported total differing from the
recorded end_index) leaving current_index unchanged, or advance
current_index by items_per_page. -/
def pag_step (env : Nat → Page) (items_per_page max_page_items : Nat)
    (s : PagState) : PagState × FetchRec :=
  let offset := min s.currentIndex max_page_items
  let page := env s.t
  let reported := page.totalCount
  let e1 := s.endIndex.getD reported
  let out : FetchRec := ⟨offset, page.data.toFinset⟩
  if reported ≠ e1 then (⟨none, s.currentIndex, s.t + 1⟩, out)
  else (⟨some e1, s.currentIndex + items_per_page, s.t + 1⟩, out)

/-- The while loop of _crawl_results run for a given number of iterations,
collecting the yielded records. -/
def pag_run (env : Nat → Page) (items_per_page max_page_items : Nat) :
    Nat → PagState → List FetchRec × PagState
  | 0, s => ([], s)
  | fuel + 1, s =>
    if is_done_paging s.currentIndex s.endIndex items_per_page max_page_items
    then ([], s)
    else
      let step := pag_step env items_per_page max_page_items s
      let rest := pag_run env items_per_page max_page_items fuel step.1
      (step.2 :: rest.1, rest.2)

/-- Outcome classification of one HTTP response in _get. -/
inductive GetOutcome where
  | success
  | retryable
  | fatal
deriving DecidableEq

/-- The status dispatch of _get, in source order: 200 succeeds; otherwise 429,
then any 5xx, raise the retrying error; then the fixed fatal status set
raises the intervention error; then 403 raises the retrying error; every
remaining status raises the intervention error. -/
def classify_status (status : Nat) : GetOutcome :=
  if status ≠ 200 then
    if status = 429 then .retryable
    else if 500 ≤ status ∧ status < 600 then .retryable
    else if status = 400 ∨ status = 401 ∨ status = 402 ∨ status = 404 ∨
        status = 405 ∨ status = 406 ∨ status = 410 then .fatal
    else if status = 403 then .retryable
    else .fatal
  else .success

/-- Result of _get under the backoff decorator, counting attempts made:
success, the retryable error re-raised after the retry budget was exhausted,
or the intervention error propagated. -/
inductive GetResult where
  | ok (tries : Nat)
  | gaveUp (tries : Nat)
  | intervention (tries : Nat)
deriving DecidableEq

def tries_of : GetResult → Nat
  | .ok t => t
  | .gaveUp t => t
  | .intervention t => t

/-- The backoff.on_exception wrapper around the classified request: the t-th
attempt sees status statuses t; a retryable failure is retried unless the
try budget is spent or the elapsed wall-clock time at that point has reached
max_time, in which case the retryable failure surfaces; a fatal
classification propagates at once. -/
def backoff_run (statuses : Nat → Nat) (elapsed : Nat → ℚ) (max_time : ℚ) :
    Nat → Nat → GetResult
  | t, 0 => .gaveUp t
  | t, fuel + 1 =>
    match classify_status (statuses t) with
    | .success => .ok (t + 1)
    | .fatal => .intervention (t + 1)
    | .retryable =>
      if fuel = 0 then .gaveUp (t + 1)
      else if max_time ≤ elapsed (t + 1) then .gaveUp (t + 1)
      else backoff_run statuses elapsed max_time (t + 1) fuel

/-- _get as decorated: max_time of 4 hours (in seconds) and max_tries 15. -/
def get_run (statuses : Nat → Nat) (elapsed : Nat → ℚ) : GetResult :=
  backoff_run statuses elapsed (4 * 60 * 60) 0 15

/-- A JSON value, as json.loads would produce it. -/
inductive Json where
  | num (n : Int)
  | str (s : String)
  | jbool (b : Bool)
  | jnull
  | arr (items : List Json)
  | obj (fields : List (String × Json))

/-- Association lookup in a JSON object. -/
def lookup_field (fields : List (String × Json)) (key : String) : Option Json :=
  match fields with
  | [] => none
  | (k, v) :: rest => if k = key then some v else lookup_field rest key

/-- Subscript access d[key]: some value, or none for the KeyError raised on a
missing key or the TypeError raised on subscripting a non-object. -/
def Json.lookup (j : Json) (key : String) : Option Json :=
  match j with
  | .obj fields => lookup_field fields key
  | _ => none

/-- int(x) on a JSON value: numbers convert, numeric strings convert, and
everything else raises. -/
def Json.to_int : Json → Option Int
  | .num n => some n
  | .str s => s.toInt?
  | _ => none

/-- The two error classes a page-processing step can raise:
ScraperNeedsHumanIntervention, or an unclassified Python exception such as
the KeyError or TypeError escaping an unvalidated subscript. -/
inductive CrawlErr where
  | intervention
  | unclassified
deriving DecidableEq

/-- The sku extraction of each entry of the data array; a missing sku key is
a KeyError. -/
def sku_list (items : List Json) : Option (List Json) :=
  items.mapM (fun it => it.lookup "sku")

/-- Body handling of one 200 response inside _crawl_results: the content-type
gate and the json.loads gate both raise the intervention error, after which
the body is used unvalidated, so meta.pagination.totalCount and the data
array skus are read by bare subscripts whose failures surface
unclassified. -/
def parse_page_body (content_type : Option String) (parsed : Option Json) :
    Except CrawlErr (Int × List Json) :=
  if content_type ≠ some "application/json" then .error .intervention
  else
    match parsed with
    | none => .error .intervention
    | some j =>
      match ((j.lookup "meta").bind (fun m => m.lookup "pagination")).bind
          (fun p => p.lookup "totalCount") with
      | none => .error .unclassified
      | some tc =>
        match tc.to_int with
        | none => .error .unclassified
        | some total =>
          match j.lookup "data" with
          | some (.arr items) =>
            match sku_list items with
            | some skus => .ok (total, skus)
            | none => .error .unclassified
          | _ => .error .unclassified

/-- The list comprehension validating each facet in order; the first
validation failure aborts the whole comprehension. -/
def validate_all (validate : Json → Option Facet) :
    List Json → Option (List Facet)
  | [] => some []
  | f :: fs =>
    match validate f with
    | none => none
    | some m =>
      match validate_all validate fs with
      | none => none
      | some ms => some (m :: ms)

/-- Body handling of one 200 response inside _get_all_facets: the same
content-type and json.loads gates, then the bare subscripts
meta and facets (failures unclassified), and only then per-facet pydantic
validation, whose ValidationError is caught and re-raised as the
intervention error; the validator itself is the external pydantic model and
is abstracted as a parameter. -/
def parse_facets_body (content_type : Option String) (parsed : Option Json)
    (validate : Json → Option Facet) : Except CrawlErr (List Facet) :=
  if content_type ≠ some "application/json" then .error .intervention
  else
    match parsed with
    | none => .error .intervention
    | some j =>
      match (j.lookup "meta").bind (fun m => m.lookup "facets") with
      | some (.arr fs) =>
        match validate_all validate fs with
        | some facets => .ok facets
        | none => .error .intervention
      | _ => .error .unclassified

/-- A drifting environment: the first fetch reports 100 items, every later
fetch reports 90. -/
def env_drift : Nat → Page :=
  fun t => if t = 0 then ⟨100, []⟩ else ⟨90, []⟩

/-- An environment whose every invocation yields no pages. -/
def c2_pages : SortBy → Option (String × String) → List PageCrawlResult :=
  fun _ _ => []

/-- A parent filter recording one child key. -/
def c2_parent : FacetFlat := ⟨"brandName", "X", 2000, {"Y"}⟩

/-- The flattened filter of that child. -/
def c2_child : FacetFlat := ⟨"brandName", "Y", 5, ∅⟩

/-- A single page carrying one sku. -/
def c5_page : PageCrawlResult := ⟨{"a"}⟩

theorem cons_set_perm {α : Type} (t : List α) (j : Nat) (vj a : α)
    (h : t[j]? = some vj) : (vj :: t.set j a).Perm (a :: t) := by
  induction t generalizing j with
  | nil => simp at h
  | cons c s ih =>
    cases j with
    | zero =>
      simp only [List.getElem?_cons_zero, Option.some.injEq] at h
      subst h
      simpa using List.Perm.swap a c s
    | succ k =>
      simp only [List.getElem?_cons_succ] at h
      have h1 : (vj :: c :: s.set k a).Perm (c :: vj :: s.set k a) :=
        List.Perm.swap c vj _
      have h2 : (c :: vj :: s.set k a).Perm (c :: a :: s) := (ih k h).cons c
      have h3 : (c :: a :: s).Perm (a :: c :: s) := List.Perm.swap a c s
      simpa using (h1.trans h2).trans h3

theorem set_set_perm {α : Type} (l : List α) (i j : Nat) (vi vj : α)
    (hi : l[i]? = some vi) (hj : l[j]? = some vj) :
    ((l.set i vj).set j vi).Perm l := by
  induction l generalizing i j with
  | nil => simp at hi
  | cons a t ih =>
    cases i with
    | zero =>
      simp only [List.getElem?_cons_zero, Option.some.injEq] at hi
      subst hi
      cases j with
      | zero =>
        simp only [List.getElem?_cons_zero, Option.some.injEq] at hj
        subst hj
        simp
      | succ k =>
        simp only [List.getElem?_cons_succ] at hj
        simpa using cons_set_perm t k vj a hj
    | succ m =>
      simp only [List.getElem?_cons_succ] at hi
      cases j with
      | zero =>
        simp only [List.getElem?_cons_zero, Option.some.injEq] at hj
        subst hj
        simpa using cons_set_perm t m vi a hi
      | succ k =>
        simp only [List.getElem?_cons_succ] at hj
        simpa using (ih m k hi hj).cons a

theorem list_swap_perm {α : Type} (l : List α) (i j : Nat) :
    (list_swap l i j).Perm l := by
  unfold list_swap
  split
  · rename_i vi vj hvi hvj
    exact set_set_perm l i j vi vj hvi hvj
  · exact List.Perm.refl l

theorem foldl_perturb_step_perm {α : Type} (radius : Nat) (coin : Nat → Bool)
    (jdraw : Nat → Nat) (n : Nat) :
    ∀ (idxs : List Nat) (l : List α),
      (idxs.foldl (perturb_step radius coin jdraw n) l).Perm l
  | [], l => List.Perm.refl l
  | i :: idxs, l => by
      refine (foldl_perturb_step_perm radius coin jdraw n idxs
        (perturb_step radius coin jdraw n l i)).trans ?_
      unfold perturb_step
      by_cases h : coin i
      · simpa [h] using list_swap_perm l i (perturb_index radius n jdraw i)
      · simp [h]

/-- C9: for every input list and every outcome of the randomness, perturb
(parameterised by radius and the coin or draw streams standing for the
probability parameter) returns a permutation of its input, and every swap it
performs exchanges position i with a partner lying at most radius away; the
input list itself is untouched because the source mutates only a copy, which
the persistent-list embedding renders automatic. -/
theorem perturb_multiset_radius {α : Type} (ls : List α) (radius : Nat)
    (coin : Nat → Bool) (jdraw : Nat → Nat) :
    (perturb ls radius coin jdraw).Perm ls ∧
    ∀ i, i < ls.length →
      i - radius ≤ perturb_index radius ls.length jdraw i ∧
      perturb_index radius ls.length jdraw i ≤ i + radius := by
  constructor
  · exact foldl_perturb_step_perm radius coin jdraw ls.length (List.range ls.length) ls
  · intro i hi
    have hmod : jdraw i % (min (ls.length - 1) (i + radius) - (i - radius) + 1) <
        min (ls.length - 1) (i + radius) - (i - radius) + 1 :=
      Nat.mod_lt _ (by omega)
    have heq : perturb_index radius ls.length jdraw i =
        (i - radius) +
          jdraw i % (min (ls.length - 1) (i + radius) - (i - radius) + 1) := rfl
    rw [heq]
    constructor <;> omega

theorem perturb_multiset_radius_witness :
    (perturb [1, 2, 3] 2 (fun _ => true) (fun _ => 1)).Perm [1, 2, 3] ∧
    (1 - 2 ≤ perturb_index 2 3 (fun _ => 1) 1 ∧
      perturb_index 2 3 (fun _ => 1) 1 ≤ 1 + 2) :=
  ⟨(perturb_multiset_radius [1, 2, 3] 2 (fun _ => true) (fun _ => 1)).1,
   (perturb_multiset_radius [1, 2, 3] 2 (fun _ => true) (fun _ => 1)).2 1 (by decide)⟩

/-- C7: for every instantiation of the backoff sequencer with a non-negative
step (the program only ever instantiates it with the default step of 1.5 ms),
the first yielded value is exactly 0; the m-th value yielded after the first
equals k * step_ms / 1000 for an integer k with 0 ≤ k ≤ 2 ^ (m - 1), since the
internal counter starts at 0 and is incremented after every yield past the
first; every yielded value is non-negative; and the stream is total in its
index, modelling that the generator never terminates on its own. -/
theorem backoff_sequencer_spec (step_ms : ℚ) (draw : Nat → Nat)
    (h : 0 ≤ step_ms) :
    exp_collision_avoidance step_ms draw 0 = 0 ∧
    (∀ m, 1 ≤ m → ∃ k : Nat, k ≤ 2 ^ (m - 1) ∧
      exp_collision_avoidance step_ms draw m = (k : ℚ) * step_ms / 1000) ∧
    (∀ m, 0 ≤ exp_collision_avoidance step_ms draw m) := by
  refine ⟨rfl, ?_, ?_⟩
  · intro m hm
    obtain ⟨c, rfl⟩ : ∃ c, m = c + 1 := ⟨m - 1, by omega⟩
    refine ⟨eca_draw_k draw c, ?_, ?_⟩
    · have hlt : eca_draw_k draw c < 2 ^ c + 1 := Nat.mod_lt _ (by positivity)
      simpa using Nat.lt_succ_iff.mp hlt
    · rfl
  · intro m
    cases m with
    | zero => simp [exp_collision_avoidance]
    | succ c =>
      simp only [exp_collision_avoidance, eca_wait]
      exact div_nonneg (mul_nonneg (Nat.cast_nonneg _) h) (by norm_num)

theorem backoff_sequencer_spec_witness :
    exp_collision_avoidance (3 / 2) (fun c => 2 ^ c) 0 = 0 ∧
    (0 : ℚ) ≤ exp_collision_avoidance (3 / 2) (fun c => 2 ^ c) 1 :=
  ⟨(backoff_sequencer_spec (3 / 2) (fun c => 2 ^ c) (by norm_num)).1,
   (backoff_sequencer_spec (3 / 2) (fun c => 2 ^ c) (by norm_num)).2.2 1⟩

mutual
theorem flatten_eq_preorder : ∀ v, flatten_facet_value v = preorder_spec v
  | .mk k d lb sel cs => by
    rw [flatten_facet_value, preorder_spec, flattens_eq_preorders cs]
theorem flattens_eq_preorders :
    ∀ vs, flatten_facet_values vs = preorder_list vs
  | [] => rfl
  | c :: cs => by
    rw [flatten_facet_values, preorder_list, flatten_eq_preorder c,
      flattens_eq_preorders cs]
end

mutual
theorem flatten_value_length :
    ∀ v, (flatten_facet_value v).length = facet_value_size v
  | .mk k d lb sel cs => by
    rw [flatten_facet_value, facet_value_size]
    simp [flatten_values_length cs]
    omega
theorem flatten_values_length :
    ∀ vs, (flatten_facet_values vs).length = facet_values_size vs
  | [] => rfl
  | c :: cs => by
    rw [flatten_facet_values, facet_values_size]
    simp [flatten_value_length c, flatten_values_length cs]
end

/-- C8: flattening emits exactly one FlatFilter per node of a FacetValue tree
in depth-first pre-order, so the node listing equals the pre-order traversal
and the flattened length equals the total node count, with no node dropped or
duplicated; each emitted FlatFilter carries the visited node's own docCount
and the set of its immediate child keys. -/
theorem flatten_is_preorder :
    (∀ v : FacetValue, flatten_facet_value v = preorder_spec v) ∧
    (∀ v : FacetValue, (flatten_facet_value v).length = facet_value_size v) ∧
    (∀ fc : Facet, (flatten_facet fc).length = facet_values_size fc.values) ∧
    (∀ fc : Facet, flatten_facet fc =
      (preorder_list fc.values).map (facet_flat_of fc.config.parameterName)) ∧
    (∀ key v, facet_flat_of key v = ⟨key, v.key, v.docCount, child_keys v⟩) := by
  refine ⟨flatten_eq_preorder, flatten_value_length, ?_, ?_, ?_⟩
  · intro fc
    simp [flatten_facet, flatten_values_length]
  · intro fc
    simp [flatten_facet, flattens_eq_preorders]
  · intro key v
    rfl

/-- C10: facet-mode ranking appends the synthetic null filter (empty key and
value, no children, itemCount equal to the catalog size) before ranking,
orders the list descending by itemCount prior to perturbation, and its
ranking key is each filter's itemCount for every filter because the penalty
branch after the early return is dead code (it would differ, as the final
conjunct evaluates). -/
theorem rank_filters_spec (n_products max_page_items : Nat)
    (filters : List FacetFlat) :
    (rank_filters n_products max_page_items filters).Perm
      (filters ++ [null_facet n_products]) ∧
    (rank_filters n_products max_page_items filters).Pairwise
      (fun a b => b.n_items ≤ a.n_items) ∧
    (∀ ff, ranker max_page_items ff = (ff.n_items : Int)) ∧
    null_facet n_products = ⟨"", "", n_products, ∅⟩ ∧
    ranker 1 ⟨"", "", 5, ∅⟩ ≠ ranker_dead_code 1 ⟨"", "", 5, ∅⟩ := by
  refine ⟨?_, ?_, fun ff => rfl, rfl, by decide⟩
  · exact (List.reverse_perm _).trans (List.mergeSort_perm _ _)
  · have hs : ((filters ++ [null_facet n_products]).mergeSort
        (fun a b => decide (ranker max_page_items a ≤ ranker max_page_items b))).Pairwise
        (fun a b =>
          decide (ranker max_page_items a ≤ ranker max_page_items b) = true) :=
      List.sorted_mergeSort
        (fun a b c hab hbc => by
          simp only [decide_eq_true_eq] at hab hbc ⊢
          exact le_trans hab hbc)
        (fun a b => by
          simp only [Bool.or_eq_true, decide_eq_true_eq]
          exact le_total _ _)
        (filters ++ [null_facet n_products])
    rw [rank_filters, List.pairwise_reverse]
    exact hs.imp (fun hab => by
      simp only [decide_eq_true_eq, ranker] at hab
      exact_mod_cast hab)

/-- C3: crawl_store selects its mode solely by comparing the up-front product
count with max_page_items: direct mode exactly when n is at most
max_page_items, dual-sort mode exactly when n lies strictly between
max_page_items and twice it (inclusive above), facet-partitioned mode exactly
when n exceeds twice max_page_items; and in each case crawl_store runs the
corresponding mode body (single default-sort unfiltered invocation; a random
dual-capable sort then its dual; flatten, rank, perturb and iterate the
filters). -/
theorem crawl_mode_selection (n_products max_page_items : Nat) :
    (crawl_mode max_page_items n_products = .direct ↔
      n_products ≤ max_page_items) ∧
    (crawl_mode max_page_items n_products = .dualSort ↔
      max_page_items < n_products ∧ n_products ≤ 2 * max_page_items) ∧
    (crawl_mode max_page_items n_products = .facetPartitioned ↔
      2 * max_page_items < n_products) ∧
    (∀ pages facets d0 dd wd coin jd, n_products ≤ max_page_items →
      crawl_store pages facets n_products max_page_items d0 dd wd coin jd =
        pages SortBy.Relevance none) ∧
    (∀ pages facets d0 dd wd coin jd,
      max_page_items < n_products → n_products ≤ 2 * max_page_items →
      crawl_store pages facets n_products max_page_items d0 dd wd coin jd =
        dual_sort_crawl pages n_products d0) ∧
    (∀ pages facets d0 dd wd coin jd, 2 * max_page_items < n_products →
      crawl_store pages facets n_products max_page_items d0 dd wd coin jd =
        (facet_crawl pages n_products max_page_items dd wd
          (perturb (rank_filters n_products max_page_items
            ((facets.map flatten_facet).flatten)) 2 coin jd)
          0 facet_state_init).out) := by
  have h1 : crawl_mode max_page_items n_products = .direct ↔
      n_products ≤ max_page_items := by
    unfold crawl_mode
    split_ifs with ha hb <;> simp <;> omega
  have h2 : crawl_mode max_page_items n_products = .dualSort ↔
      max_page_items < n_products ∧ n_products ≤ 2 * max_page_items := by
    unfold crawl_mode
    split_ifs with ha hb <;> simp <;> omega
  have h3 : crawl_mode max_page_items n_products = .facetPartitioned ↔
      2 * max_page_items < n_products := by
    unfold crawl_mode
    split_ifs with ha hb <;> simp <;> omega
  refine ⟨h1, h2, h3, ?_, ?_, ?_⟩
  · intro pages facets d0 dd wd coin jd h
    unfold crawl_store
    rw [h1.mpr h]
  · intro pages facets d0 dd wd coin jd ha hb
    unfold crawl_store
    rw [h2.mpr ⟨ha, hb⟩]
  · intro pages facets d0 dd wd coin jd h
    unfold crawl_store
    rw [h3.mpr h]

theorem crawl_mode_selection_witness :
    crawl_store (fun _ _ => []) [] 45 1000 0 (fun _ => 0) (fun _ => 0)
      (fun _ => false) (fun _ => 0) =
      (fun (_ : SortBy) (_ : Option (String × String)) =>
        ([] : List PageCrawlResult)) SortBy.Relevance none :=
  (crawl_mode_selection 45 1000).2.2.2.1 (fun _ _ => []) [] 0 (fun _ => 0)
    (fun _ => 0) (fun _ => false) (fun _ => 0) (by decide)

theorem classify_status_eq (status : Nat) :
    classify_status status =
      if status = 200 then GetOutcome.success
      else if status = 429 ∨ (500 ≤ status ∧ status < 600) ∨ status = 403
        then GetOutcome.retryable
      else GetOutcome.fatal := by
  unfold classify_status
  split_ifs <;> first | rfl | (exfalso; omega)

theorem backoff_run_succ (statuses : Nat → Nat) (elapsed : Nat → ℚ)
    (max_time : ℚ) (t fuel : Nat) :
    backoff_run statuses elapsed max_time t (fuel + 1) =
      match classify_status (statuses t) with
      | .success => .ok (t + 1)
      | .fatal => .intervention (t + 1)
      | .retryable =>
        if fuel = 0 then .gaveUp (t + 1)
        else if max_time ≤ elapsed (t + 1) then .gaveUp (t + 1)
        else backoff_run statuses elapsed max_time (t + 1) fuel := rfl

theorem backoff_run_tries_le (statuses : Nat → Nat) (elapsed : Nat → ℚ)
    (max_time : ℚ) :
    ∀ fuel t, tries_of (backoff_run statuses elapsed max_time t fuel) ≤ t + fuel
  | 0, t => by simp [backoff_run, tries_of]
  | fuel + 1, t => by
    rw [backoff_run_succ]
    rcases h : classify_status (statuses t) with _ | _ | _ <;> dsimp only
    · simp [tries_of]
    · split_ifs with h1 h2
      · simp [tries_of]
      · simp [tries_of]
      · have := backoff_run_tries_le statuses elapsed max_time fuel (t + 1)
        simp only [tries_of] at *
        omega
    · simp [tries_of]

theorem backoff_run_tries_ge (statuses : Nat → Nat) (elapsed : Nat → ℚ)
    (max_time : ℚ) :
    ∀ fuel t, 1 ≤ fuel →
      t + 1 ≤ tries_of (backoff_run statuses elapsed max_time t fuel)
  | 0, t, h => absurd h (by omega)
  | fuel + 1, t, _ => by
    rw [backoff_run_succ]
    rcases h : classify_status (statuses t) with _ | _ | _ <;> dsimp only
    · simp [tries_of]
    · split_ifs with h1 h2
      · simp [tries_of]
      · simp [tries_of]
      · have := backoff_run_tries_ge statuses elapsed max_time fuel (t + 1)
          (by omega)
        omega
    · simp [tries_of]

/-- C4: the page fetch classifies 429, any 5xx and 403 as retryable and every
other non-200 status (the listed set 400, 401, 402, 404, 405, 406, 410
included) as fatal; under the backoff wrapper a run makes at most 15
attempts, a fatal first classification propagates the intervention error
immediately after exactly one attempt, a retryable first classification with
time budget left leads to an actual retry (a second attempt), and a
retryable classification with the 4-hour budget spent surfaces the
exhaustion. -/
theorem page_fetch_classification (status : Nat) (statuses : Nat → Nat)
    (elapsed : Nat → ℚ) :
    (classify_status status = .retryable ↔
      (status = 429 ∨ (500 ≤ status ∧ status < 600) ∨ status = 403)) ∧
    (classify_status status = .success ↔ status = 200) ∧
    (classify_status status = .fatal ↔ (status ≠ 200 ∧
      ¬(status = 429 ∨ (500 ≤ status ∧ status < 600) ∨ status = 403))) ∧
    tries_of (get_run statuses elapsed) ≤ 15 ∧
    (classify_status (statuses 0) = .fatal →
      get_run statuses elapsed = .intervention 1) ∧
    (classify_status (statuses 0) = .retryable → elapsed 1 < 4 * 60 * 60 →
      2 ≤ tries_of (get_run statuses elapsed)) ∧
    (classify_status (statuses 0) = .retryable → 4 * 60 * 60 ≤ elapsed 1 →
      get_run statuses elapsed = .gaveUp 1) := by
  have hc := classify_status_eq status
  refine ⟨?_, ?_, ?_, ?_, ?_, ?_, ?_⟩
  · rw [hc]
    split_ifs with ha hb <;> simp_all <;> omega
  · rw [hc]
    split_ifs with ha hb <;> simp_all
  · rw [hc]
    split_ifs with ha hb <;> simp_all
  · exact backoff_run_tries_le statuses elapsed (4 * 60 * 60) 15 0
  · intro h
    show backoff_run statuses elapsed (4 * 60 * 60) 0 (14 + 1) = .intervention 1
    rw [backoff_run_succ, h]
  · intro h ht
    have hlt : ¬((4 * 60 * 60 : ℚ) ≤ elapsed 1) := not_le.mpr ht
    have hred : get_run statuses elapsed =
        backoff_run statuses elapsed (4 * 60 * 60) 1 14 := by
      show backoff_run statuses elapsed (4 * 60 * 60) 0 (14 + 1) = _
      rw [backoff_run_succ, h]
      simp [hlt]
    rw [hred]
    exact backoff_run_tries_ge statuses elapsed (4 * 60 * 60) 14 1 (by omega)
  · intro h ht
    show backoff_run statuses elapsed (4 * 60 * 60) 0 (14 + 1) = .gaveUp 1
    rw [backoff_run_succ, h]
    simp [ht]

theorem page_fetch_classification_witness :
    get_run (fun _ => 404) (fun _ => 0) = .intervention 1 :=
  (page_fetch_classification 404 (fun _ => 404) (fun _ => 0)).2.2.2.2.1
    (by decide)

theorem crawl_page_loop_stop (n : Nat) (ps : List PageCrawlResult) :
    ∀ seen, (crawl_page_loop n seen ps).stopped = true →
      ∃ k, k < ps.length ∧
        (crawl_page_loop n seen ps).out = ps.take k ∧
        (crawl_page_loop n seen ps).seen = seen ∪ skus_union (ps.take (k + 1)) ∧
        n ≤ (crawl_page_loop n seen ps).seen.card := by
  induction ps with
  | nil =>
    intro seen h
    simp [crawl_page_loop] at h
  | cons p ps ih =>
    intro seen h
    by_cases hc : n ≤ (seen ∪ p.skus).card
    · refine ⟨0, by simp, ?_, ?_, ?_⟩
      · simp [crawl_page_loop, hc]
      · simp [crawl_page_loop, hc, skus_union]
      · simpa [crawl_page_loop, hc] using hc
    · have h2 : (crawl_page_loop n (seen ∪ p.skus) ps).stopped = true := by
        simpa [crawl_page_loop, hc] using h
      obtain ⟨k, hk, hout, hseen, hcard⟩ := ih (seen ∪ p.skus) h2
      refine ⟨k + 1, by simpa using hk, ?_, ?_, ?_⟩
      · simp [crawl_page_loop, hc, hout]
      · simp [crawl_page_loop, hc, hseen, skus_union, Finset.union_assoc]
      · simpa [crawl_page_loop, hc] using hcard

/-- C5: in the page-consuming loop shared by dual-sort mode and facet mode,
whenever a fetched page brings the seen-sku set to at least the target n, the
loop stops before yielding that page: the pages delivered are a strict prefix
that excludes the triggering page, while the final seen set does count the
triggering page and reaches n; consequently the skus over the delivered pages
can be strictly fewer than n (the middle conjuncts evaluate a run delivering
no page at all for n = 1), and when the first invocation of dual-sort mode
stops this way, dual_sort_crawl returns exactly that loop's delivered
pages. -/
theorem early_stop_gate :
    (∀ n seen (ps : List PageCrawlResult),
      (crawl_page_loop n seen ps).stopped = true →
      ∃ k, k < ps.length ∧
        (crawl_page_loop n seen ps).out = ps.take k ∧
        (crawl_page_loop n seen ps).seen = seen ∪ skus_union (ps.take (k + 1)) ∧
        n ≤ (crawl_page_loop n seen ps).seen.card) ∧
    (crawl_page_loop 1 ∅ [c5_page]).stopped = true ∧
    (crawl_page_loop 1 ∅ [c5_page]).out = [] ∧
    (skus_union (crawl_page_loop 1 ∅ [c5_page]).out).card < 1 ∧
    (∀ pages n d0,
      (crawl_page_loop n ∅ (pages (choice_sort duals_keys d0) none)).stopped
        = true →
      dual_sort_crawl pages n d0 =
        (crawl_page_loop n ∅ (pages (choice_sort duals_keys d0) none)).out) := by
  refine ⟨fun n seen ps => crawl_page_loop_stop n ps seen, by decide, by decide,
    by decide, ?_⟩
  intro pages n d0 h
  simp [dual_sort_crawl, h]

theorem early_stop_gate_witness :
    ∃ k, k < ([c5_page] : List PageCrawlResult).length ∧
      (crawl_page_loop 1 ∅ [c5_page]).out = [c5_page].take k ∧
      (crawl_page_loop 1 ∅ [c5_page]).seen =
        ∅ ∪ skus_union ([c5_page].take (k + 1)) ∧
      1 ≤ (crawl_page_loop 1 ∅ [c5_page]).seen.card :=
  early_stop_gate.1 1 ∅ [c5_page] (by decide)

/-- C1 (amended): on a drift event the Paginator clears endIndex back to
unknown but leaves the offset counter where it was; the drift fetch itself is
still yielded, and the next fetch re-requests the same clamped offset, adopts
the freshly reported totalCount as the new endIndex, and only then advances
the offset by one page; this holds at every state and fetch where drift is
detected. -/
theorem drift_keeps_offset (env : Nat → Page)
    (items_per_page max_page_items : Nat) (s : PagState) (e : Nat)
    (h1 : s.endIndex = some e) (h2 : (env s.t).totalCount ≠ e) :
    (pag_step env items_per_page max_page_items s).1 =
      ⟨none, s.currentIndex, s.t + 1⟩ ∧
    (pag_step env items_per_page max_page_items s).2 =
      ⟨min s.currentIndex max_page_items, (env s.t).data.toFinset⟩ ∧
    (pag_step env items_per_page max_page_items
        (pag_step env items_per_page max_page_items s).1).1 =
      ⟨some (env (s.t + 1)).totalCount, s.currentIndex + items_per_page,
        s.t + 2⟩ ∧
    (pag_step env items_per_page max_page_items
        (pag_step env items_per_page max_page_items s).1).2.offset =
      min s.currentIndex max_page_items := by
  have hstep : pag_step env items_per_page max_page_items s =
      (⟨none, s.currentIndex, s.t + 1⟩,
        ⟨min s.currentIndex max_page_items, (env s.t).data.toFinset⟩) := by
    simp [pag_step, h1, h2]
  have hstep2 : pag_step env items_per_page max_page_items
      (⟨none, s.currentIndex, s.t + 1⟩ : PagState) =
      (⟨some (env (s.t + 1)).totalCount, s.currentIndex + items_per_page,
          s.t + 2⟩,
        ⟨min s.currentIndex max_page_items, (env (s.t + 1)).data.toFinset⟩) := by
    simp [pag_step]
  refine ⟨by rw [hstep], by rw [hstep], ?_, ?_⟩
  · rw [hstep, hstep2]
  · rw [hstep, hstep2]

theorem drift_keeps_offset_witness :
    (pag_step env_drift 60 1000 ⟨some 100, 60, 1⟩).1 = ⟨none, 60, 1 + 1⟩ ∧
    (pag_step env_drift 60 1000 ⟨some 100, 60, 1⟩).2 =
      ⟨min 60 1000, (env_drift 1).data.toFinset⟩ ∧
    (pag_step env_drift 60 1000
        (pag_step env_drift 60 1000 ⟨some 100, 60, 1⟩).1).1 =
      ⟨some (env_drift (1 + 1)).totalCount, 60 + 60, 1 + 2⟩ ∧
    (pag_step env_drift 60 1000
        (pag_step env_drift 60 1000 ⟨some 100, 60, 1⟩).1).2.offset =
      min 60 1000 :=
  drift_keeps_offset env_drift 60 1000 ⟨some 100, 60, 1⟩ 100 rfl (by decide)

/-- C1 (counterexample): running the Paginator against a catalog whose
reported total shrinks from 100 to 90 after the first fetch, the three fetches
request offsets 0, 60 and 60: the drift at the second fetch clears endIndex
but leaves the offset counter at 60, so pagination does not restart from
offset 0 as claimed. -/
theorem drift_offset_not_reset_cex :
    ((pag_run env_drift 60 1000 3 pag_init).1.map FetchRec.offset =
      [0, 60, 60]) ∧
    (pag_step env_drift 60 1000 ⟨some 100, 60, 1⟩).1.endIndex = none ∧
    (pag_step env_drift 60 1000 ⟨some 100, 60, 1⟩).1.currentIndex = 60 ∧
    ¬((pag_step env_drift 60 1000 ⟨some 100, 60, 1⟩).1.currentIndex = 0) := by
  decide

/-- C2 (code bug): processing the parent filter brandName=X, whose recorded
child key is the bare string Y, leaves Y in the exhausted set while the child
filter's identity brandName=Y is not in it, because children are recorded by
bare key yet the crawl guard tests the key=value identity; iterating the
ranked list [parent, child] therefore logs a Paginator invocation for the
child filter (the third log entry), so a child filter of an already-processed
parent is individually crawled, contradicting both the claim and the
source comment that the exhausted set prevents crawling child facets. -/
theorem child_filter_crawled_bug :
    ("Y" ∈ (facet_filter_step c2_pages 50 1000 (fun _ => 0) (fun _ => 0) 0
      ⟨[], ∅, ∅, [], false⟩ c2_parent).exhausted) ∧
    ("brandName=X" ∈ (facet_filter_step c2_pages 50 1000 (fun _ => 0)
      (fun _ => 0) 0 ⟨[], ∅, ∅, [], false⟩ c2_parent).exhausted) ∧
    (c2_child.id ∉ (facet_filter_step c2_pages 50 1000 (fun _ => 0)
      (fun _ => 0) 0 ⟨[], ∅, ∅, [], false⟩ c2_parent).exhausted) ∧
    ((facet_crawl c2_pages 50 1000 (fun _ => 0) (fun _ => 0)
      [c2_parent, c2_child] 0 ⟨[], ∅, ∅, [], false⟩).log =
      [(SortBy.AToZ, "brandName", "X"), (SortBy.ZToA, "brandName", "X"),
        (SortBy.Relevance, "brandName", "Y")]) ∧
    ((facet_crawl c2_pages 50 1000 (fun _ => 0) (fun _ => 0)
      [c2_parent, c2_child] 0 ⟨[], ∅, ∅, [], false⟩).stopped = false) := by
  decide

/-- C6 (amended): for every 200 response, a non-JSON content type or a JSON
parse failure raises the intervention error in both the paginator page fetch
and the facets fetch; schema validation happens only in the facets fetch,
where a pydantic validation failure over the facets array raises the
intervention error; the paginator page fetch performs no schema validation,
so a body whose shape has changed (the pagination lookup chain failing)
surfaces as an unclassified error instead. -/
theorem body_error_classification :
    (∀ ct parsed, ct ≠ some "application/json" →
      parse_page_body ct parsed = .error .intervention ∧
      ∀ v, parse_facets_body ct parsed v = .error .intervention) ∧
    (parse_page_body (some "application/json") none = .error .intervention) ∧
    (∀ v, parse_facets_body (some "application/json") none v =
      .error .intervention) ∧
    (∀ j v fs,
      (j.lookup "meta").bind (fun m => m.lookup "facets") =
        some (.arr fs) →
      validate_all v fs = none →
      parse_facets_body (some "application/json") (some j) v =
        .error .intervention) ∧
    (∀ j, ((j.lookup "meta").bind (fun m => m.lookup "pagination")).bind
        (fun p => p.lookup "totalCount") = none →
      parse_page_body (some "application/json") (some j) =
        .error .unclassified) := by
  refine ⟨?_, rfl, fun v => rfl, ?_, ?_⟩
  · intro ct parsed h
    constructor
    · simp [parse_page_body, h]
    · intro v
      simp [parse_facets_body, h]
  · intro j v fs h1 h2
    simp [parse_facets_body, h1, h2]
  · intro j h
    simp [parse_page_body, h]

theorem body_error_classification_witness :
    parse_page_body none (some (Json.obj [])) = .error .intervention :=
  (body_error_classification.1 none (some (Json.obj [])) (by decide)).1

/-- C6 (counterexample): a 200 response with JSON content type whose body
parses as the empty JSON object — a schema change — makes the paginator page
fetch raise an unclassified error (the KeyError of the bare subscript), not
the needs-intervention error the claim requires. -/
theorem page_schema_unvalidated_cex :
    parse_page_body (some "application/json") (some (Json.obj [])) =
      .error .unclassified ∧
    CrawlErr.unclassified ≠ CrawlErr.intervention :=
  ⟨rfl, by decide⟩
